import Mathlib

/-!
Shallow embedding of the `spacetime_tiled` streaming TMX loader
(`src/lib.rs`, `load_tmx_map_from_str` and the chunked arm of
`store_tile_layer`) together with proofs checking the natural-language
specification against it.

Modelling conventions:
* The XML tokenizer (`quick_xml`) is an external collaborator; it is
  represented by a list of `XmlEvent`s.  Attribute values are byte lists,
  since the source decodes them with `std::str::from_utf8`.  Text content
  is modelled after `e.unescape().unwrap()` has produced a string.
* Machine integers are `Nat`/`Int`; truncating casts (`count() as u32`,
  `idx as u32`, `i32 as u32`) are explicit `% 2^32` / `Int.emod`.
* `f32` attribute values are represented by the accepted literal text
  (`F32`): which branch of `parse::<f32>().unwrap_or(d)` is taken is
  modelled faithfully by a syntactic check of Rust's float grammar, but
  IEEE rounding is not interpreted; no proved property depends on a float
  value (underflow-to-zero literals are treated as non-zero by `f32IsZero`,
  an abstraction irrelevant to every claim below).
* Fallible code yields `LRes`: `ok` (the `Ok` path), `err` (an `Err`
  returned to the caller) or `panic` (a Rust panic: `unwrap` on invalid
  UTF-8, `%`/`/` by zero).  Database inserts (`try_insert`) fail exactly on
  a duplicate primary key.
-/

namespace SpacetimeTiled

/-- Outcome of a fallible loader computation: `ok` mirrors `Ok`, `err`
mirrors an `Err(String)` returned to the caller, and `panic` records a Rust
panic (which unwinds without returning a `Result`). -/
inductive LRes (α : Type) where
  | ok (a : α)
  | err (e : String)
  | panic (e : String)
deriving DecidableEq

/-- True iff the outcome is a returned error (`Err`), not a panic. -/
def LRes.isErr {α : Type} : LRes α → Bool
  | .err _ => true
  | _ => false

/-- True iff the outcome is a Rust panic. -/
def LRes.isPanic {α : Type} : LRes α → Bool
  | .panic _ => true
  | _ => false

-- ============================================================
-- Table rows (struct definitions from src/lib.rs)
-- ============================================================

/-- Row of table `tiled_map` (`struct TiledMap`). -/
structure TiledMap where
  map_id : Nat
  name : String
  width : Nat
  height : Nat
  tile_width : Nat
  tile_height : Nat
  orientation : String
  background_color : Option String
deriving DecidableEq

/-- An `f32` field, represented by the literal text that produced it (see
the header comment: float values themselves are never needed). -/
structure F32 where
  lit : String
deriving DecidableEq

/-- Row of table `tiled_layer` (`struct TiledLayer`). -/
structure TiledLayer where
  layer_id : Nat
  map_id : Nat
  name : String
  layer_type : String
  visible : Bool
  opacity : F32
  offset_x : Int
  offset_y : Int
  z_order : Nat
deriving DecidableEq

/-- Row of table `tiled_tile` (`struct TiledTile`). -/
structure TiledTile where
  tile_id : Nat
  layer_id : Nat
  x : Nat
  y : Nat
  gid : Nat
  flip_h : Bool
  flip_v : Bool
  flip_d : Bool
deriving DecidableEq

/-- Row of table `tiled_tileset` (`struct TiledTileset`). -/
structure TiledTileset where
  tileset_id : Nat
  map_id : Nat
  tileset_index : Nat
  name : String
  tile_width : Nat
  tile_height : Nat
  tile_count : Nat
  columns : Nat
  image_source : Option String
  image_width : Option Nat
  image_height : Option Nat
deriving DecidableEq

/-- Row of table `tiled_object` (`struct TiledObject`). -/
structure TiledObject where
  object_id : Nat
  layer_id : Nat
  name : String
  obj_type : String
  x : F32
  y : F32
  width : F32
  height : F32
  rotation : F32
  visible : Bool
  shape : String
deriving DecidableEq

/-- Row of table `tiled_property` (`struct TiledProperty`); the streaming
loader never inserts into this table. -/
structure TiledProperty where
  property_id : Nat
  parent_type : String
  parent_id : Nat
  key : String
  value : String
  value_type : String
deriving DecidableEq

/-- The relational sink: the six SpacetimeDB tables, each an append-only
row list in insertion order. -/
structure Db where
  maps : List TiledMap
  layers : List TiledLayer
  tiles : List TiledTile
  tilesets : List TiledTileset
  objects : List TiledObject
  properties : List TiledProperty
deriving DecidableEq

/-- Model of `try_insert` into `tiled_map`: fails on a duplicate primary key. -/
def Db.insertMap (db : Db) (r : TiledMap) : Except String Db :=
  if db.maps.any (fun m => m.map_id == r.map_id) then
    .error "Failed to insert map: duplicate primary key"
  else .ok { db with maps := db.maps ++ [r] }

/-- Model of `try_insert` into `tiled_layer`. -/
def Db.insertLayer (db : Db) (r : TiledLayer) : Except String Db :=
  if db.layers.any (fun l => l.layer_id == r.layer_id) then
    .error "Failed to insert layer: duplicate primary key"
  else .ok { db with layers := db.layers ++ [r] }

/-- Model of `try_insert` into `tiled_tile`. -/
def Db.insertTile (db : Db) (r : TiledTile) : Except String Db :=
  if db.tiles.any (fun t => t.tile_id == r.tile_id) then
    .error "Failed to insert tile: duplicate primary key"
  else .ok { db with tiles := db.tiles ++ [r] }

/-- Model of `try_insert` into `tiled_tileset`. -/
def Db.insertTileset (db : Db) (r : TiledTileset) : Except String Db :=
  if db.tilesets.any (fun t => t.tileset_id == r.tileset_id) then
    .error "Failed to insert tileset: duplicate primary key"
  else .ok { db with tilesets := db.tilesets ++ [r] }

/-- Model of `try_insert` into `tiled_object`. -/
def Db.insertObject (db : Db) (r : TiledObject) : Except String Db :=
  if db.objects.any (fun o => o.object_id == r.object_id) then
    .error "Failed to insert object: duplicate primary key"
  else .ok { db with objects := db.objects ++ [r] }

-- ============================================================
-- Rust parsing primitives (str::parse, str::trim, from_utf8)
-- ============================================================

/-- The character is an ASCII decimal digit. -/
def isDigit (c : Char) : Bool := '0' ≤ c && c ≤ '9'

/-- Value of a digit run, `none` if a non-digit appears
(accumulator-style, mirroring `from_str_radix`). -/
def digitsVal (acc : Nat) : List Char → Option Nat
  | [] => some acc
  | c :: cs => if isDigit c then digitsVal (acc * 10 + (c.toNat - 48)) cs else none

/-- Model of `str::parse::<u32>`: optional leading `+`, then one or more ASCII
digits; values `≥ 2^32` are an overflow error.  A leading `-` is rejected
for unsigned targets. -/
def parseU32 (s : String) : Option Nat :=
  let cs := match s.toList with
    | '+' :: rest => rest
    | l => l
  match cs with
  | [] => none
  | _ => match digitsVal 0 cs with
    | some n => if n < 4294967296 then some n else none
    | none => none

/-- Model of `str::parse::<i32>`: optional sign, digits, two's-complement range
check. -/
def parseI32 (s : String) : Option Int :=
  match s.toList with
  | '-' :: rest =>
    (match rest with
     | [] => none
     | _ => match digitsVal 0 rest with
       | some n => if n ≤ 2147483648 then some (-(n : Int)) else none
       | none => none)
  | '+' :: rest =>
    (match rest with
     | [] => none
     | _ => match digitsVal 0 rest with
       | some n => if n < 2147483648 then some (n : Int) else none
       | none => none)
  | l =>
    match l with
    | [] => none
    | _ => match digitsVal 0 l with
      | some n => if n < 2147483648 then some (n : Int) else none
      | none => none

/-- Unicode `White_Space` code points, as used by `str::trim`
(`char::is_whitespace`). -/
def isRustWhitespace (c : Char) : Bool :=
  c.toNat ∈ [0x09, 0x0A, 0x0B, 0x0C, 0x0D, 0x20, 0x85, 0xA0, 0x1680,
    0x2000, 0x2001, 0x2002, 0x2003, 0x2004, 0x2005, 0x2006, 0x2007,
    0x2008, 0x2009, 0x200A, 0x2028, 0x2029, 0x202F, 0x205F, 0x3000]

/-- Model of `str::trim` on a character list. -/
def rustTrim (l : List Char) : List Char :=
  ((l.dropWhile isRustWhitespace).reverse.dropWhile isRustWhitespace).reverse

/-- Model of `str::split(',')`: cuts at every comma, keeping empty pieces. -/
def splitOnComma : List Char → List (List Char)
  | [] => [[]]
  | c :: rest =>
    match splitOnComma rest with
    | [] => [[c]]
    | cur :: rs => if c = ',' then [] :: cur :: rs else (c :: cur) :: rs

/-- A UTF-8 continuation byte (`0x80..=0xBF`). -/
def isCont (b : Nat) : Bool := 0x80 ≤ b && b ≤ 0xBF

/-- Strict UTF-8 decoding of a byte list, as `std::str::from_utf8`
validates it: shortest forms only, no surrogates, max `U+10FFFF`. -/
def utf8DecodeChars : List Nat → Option (List Char)
  | [] => some []
  | b1 :: rest =>
    if b1 ≤ 0x7F then
      (utf8DecodeChars rest).map (fun cs => Char.ofNat b1 :: cs)
    else if 0xC2 ≤ b1 && b1 ≤ 0xDF then
      match rest with
      | b2 :: rest2 =>
        if isCont b2 then
          (utf8DecodeChars rest2).map
            (fun cs => Char.ofNat ((b1 - 0xC0) * 64 + (b2 - 0x80)) :: cs)
        else none
      | [] => none
    else if 0xE0 ≤ b1 && b1 ≤ 0xEF then
      match rest with
      | b2 :: b3 :: rest2 =>
        if ((b1 = 0xE0 && 0xA0 ≤ b2 && b2 ≤ 0xBF) ||
            (0xE1 ≤ b1 && b1 ≤ 0xEC && isCont b2) ||
            (b1 = 0xED && 0x80 ≤ b2 && b2 ≤ 0x9F) ||
            (0xEE ≤ b1 && b1 ≤ 0xEF && isCont b2)) && isCont b3 then
          (utf8DecodeChars rest2).map
            (fun cs =>
              Char.ofNat ((b1 - 0xE0) * 4096 + (b2 - 0x80) * 64 + (b3 - 0x80)) :: cs)
        else none
      | _ => none
    else if 0xF0 ≤ b1 && b1 ≤ 0xF4 then
      match rest with
      | b2 :: b3 :: b4 :: rest2 =>
        if ((b1 = 0xF0 && 0x90 ≤ b2 && b2 ≤ 0xBF) ||
            (0xF1 ≤ b1 && b1 ≤ 0xF3 && isCont b2) ||
            (b1 = 0xF4 && 0x80 ≤ b2 && b2 ≤ 0x8F)) && isCont b3 && isCont b4 then
          (utf8DecodeChars rest2).map
            (fun cs =>
              Char.ofNat ((b1 - 0xF0) * 262144 + (b2 - 0x80) * 4096 +
                (b3 - 0x80) * 64 + (b4 - 0x80)) :: cs)
        else none
      | _ => none
    else none

/-- Model of `std::str::from_utf8(bytes)` as an `Option String`. -/
def utf8Decode (v : List Nat) : Option String :=
  (utf8DecodeChars v).map String.mk

/-- UTF-8 encoding of a string (used to build concrete attribute values). -/
def utf8EncodeChar (c : Char) : List Nat :=
  let n := c.toNat
  if n ≤ 0x7F then [n]
  else if n ≤ 0x7FF then [0xC0 + n / 64, 0x80 + n % 64]
  else if n ≤ 0xFFFF then [0xE0 + n / 4096, 0x80 + n / 64 % 64, 0x80 + n % 64]
  else [0xF0 + n / 262144, 0x80 + n / 4096 % 64, 0x80 + n / 64 % 64, 0x80 + n % 64]

/-- UTF-8 encoding of a string. -/
def utf8Encode (s : String) : List Nat :=
  s.toList.flatMap utf8EncodeChar

/-- Panic message recorded when `from_utf8(..).unwrap()` hits invalid
UTF-8. -/
def utf8PanicMsg : String := "called unwrap on a Utf8Error"

/-- Panic message of `%` with divisor zero (Rust's wording). -/
def remZeroPanicMsg : String :=
  "attempt to calculate the remainder with a divisor of zero"

-- ============================================================
-- f32 literal grammar (str::parse::<f32> succeeds or not)
-- ============================================================

/-- Lower-case an ASCII letter. -/
def toLowerAscii (c : Char) : Char :=
  if 'A' ≤ c && c ≤ 'Z' then Char.ofNat (c.toNat + 32) else c

/-- Mantissa part of Rust's float grammar: `digits [. digits]` or
`. digits`, at least one digit in total. -/
def validMantissa (cs : List Char) : Bool :=
  let intPart := cs.takeWhile isDigit
  match cs.dropWhile isDigit with
  | [] => !intPart.isEmpty
  | '.' :: frac => frac.all isDigit && (!intPart.isEmpty || !frac.isEmpty)
  | _ => false

/-- Exponent part: `e`/`E`, optional sign, one or more digits; `none`
means no exponent marker present. -/
def validExponent (cs : List Char) : Bool :=
  match cs with
  | [] => true
  | e :: rest =>
    if e = 'e' || e = 'E' then
      let ds := match rest with
        | '+' :: ds => ds
        | '-' :: ds => ds
        | ds => ds
      !ds.isEmpty && ds.all isDigit
    else false

/-- Does `str::parse::<f32>` accept this literal?  (Optional sign;
`inf`/`infinity`/`nan` case-insensitively; else mantissa with optional
exponent.  Rust float parsing never fails on overflow.) -/
def isF32Lit (s : String) : Bool :=
  let cs := match s.toList with
    | '+' :: r => r
    | '-' :: r => r
    | l => l
  let low := cs.map toLowerAscii
  if low = "inf".toList || low = "infinity".toList || low = "nan".toList then true
  else
    validMantissa (cs.takeWhile (fun c => c ≠ 'e' && c ≠ 'E')) &&
      validExponent (cs.dropWhile (fun c => c ≠ 'e' && c ≠ 'E'))

/-- Model of `s.parse::<f32>()` keeping the literal as the value representation. -/
def parseF32 (s : String) : Option F32 :=
  if isF32Lit s then some ⟨s⟩ else none

/-- The comparison `v == 0.0` on a stored f32: true iff the accepted
literal is a (possibly signed) zero mantissa.  (Denormal underflow to zero
is not modelled; no claim depends on it.) -/
def f32IsZero (f : F32) : Bool :=
  let cs := match f.lit.toList with
    | '+' :: r => r
    | '-' :: r => r
    | l => l
  let mant := cs.takeWhile (fun c => c ≠ 'e' && c ≠ 'E')
  let low := cs.map toLowerAscii
  if low = "inf".toList || low = "infinity".toList || low = "nan".toList then false
  else mant.all (fun c => c = '0' || c = '.')

-- ============================================================
-- XML events and attribute reading
-- ============================================================

/-- One attribute yielded by `e.attributes()`: either a key/value pair
(value as raw bytes) or an attribute-level tokenizer error. -/
inductive Attr where
  | ok (key : String) (value : List Nat)
  | err (msg : String)
deriving DecidableEq

/-- A `quick_xml` event.  `start` covers `Event::Start` and
`Event::Empty`, which the source handles identically; `text` carries the
already-unescaped character data; `errEv` is a tokenizer-level
`Err(_)`. -/
inductive XmlEvent where
  | start (name : String) (attrs : List Attr)
  | text (s : String)
  | endE (name : String)
  | eof
  | errEv (msg : String)
deriving DecidableEq

/-- The per-element attribute loop: each attribute is first checked for an
attribute error (`attr.map_err(..)?` → `err`), then handed to the
element's `match attr.key` body, which may itself panic on invalid UTF-8. -/
def attrFold {α : Type} (step : α → String → List Nat → LRes α) (a : α) :
    List Attr → LRes α
  | [] => .ok a
  | .err m :: _ => .err ("Failed to parse attribute: " ++ m)
  | .ok k v :: rest =>
    match step a k v with
    | .ok a' => attrFold step a' rest
    | .err m => .err m
    | .panic m => .panic m

/-- Model of `std::str::from_utf8(&attr.value).unwrap()` followed by a use of the
decoded string: panics on invalid UTF-8. -/
def withUtf8 {α : Type} (v : List Nat) (f : String → α) : LRes α :=
  match utf8Decode v with
  | some s => .ok (f s)
  | none => .panic utf8PanicMsg

/-- Attributes of `<map>` (the loader's mutable map metadata). -/
structure MapAttrs where
  width : Nat
  height : Nat
  tile_width : Nat
  tile_height : Nat
  orientation : String
  background_color : Option String
deriving DecidableEq

/-- The `match attr.key` body of the `<map>` arm; unparsable numerics default
to 0 via `unwrap_or(0)`, unknown keys are ignored. -/
def mapAttrStep (m : MapAttrs) (k : String) (v : List Nat) : LRes MapAttrs :=
  if k = "width" then withUtf8 v (fun s => { m with width := (parseU32 s).getD 0 })
  else if k = "height" then withUtf8 v (fun s => { m with height := (parseU32 s).getD 0 })
  else if k = "tilewidth" then withUtf8 v (fun s => { m with tile_width := (parseU32 s).getD 0 })
  else if k = "tileheight" then withUtf8 v (fun s => { m with tile_height := (parseU32 s).getD 0 })
  else if k = "orientation" then withUtf8 v (fun s => { m with orientation := s })
  else if k = "backgroundcolor" then withUtf8 v (fun s => { m with background_color := some s })
  else .ok m

/-- Attributes of `<tileset>`. -/
structure TilesetAttrs where
  name : String
  ts_tile_width : Nat
  ts_tile_height : Nat
  tile_count : Nat
  columns : Nat
deriving DecidableEq

/-- The `match attr.key` body of the `<tileset>` arm. -/
def tilesetAttrStep (t : TilesetAttrs) (k : String) (v : List Nat) : LRes TilesetAttrs :=
  if k = "name" then withUtf8 v (fun s => { t with name := s })
  else if k = "tilewidth" then withUtf8 v (fun s => { t with ts_tile_width := (parseU32 s).getD 0 })
  else if k = "tileheight" then withUtf8 v (fun s => { t with ts_tile_height := (parseU32 s).getD 0 })
  else if k = "tilecount" then withUtf8 v (fun s => { t with tile_count := (parseU32 s).getD 0 })
  else if k = "columns" then withUtf8 v (fun s => { t with columns := (parseU32 s).getD 0 })
  else .ok t

/-- Attributes of `<layer>` / `<objectgroup>` (the two source loops are
verbatim copies of each other; modelled once). -/
structure LayerAttrs where
  name : String
  visible : Bool
  opacity : F32
  offset_x : Int
  offset_y : Int
deriving DecidableEq

/-- Defaults of the `<layer>` / `<objectgroup>` attribute loop. -/
def layerAttrsDefault : LayerAttrs :=
  { name := "", visible := true, opacity := ⟨"1.0"⟩, offset_x := 0, offset_y := 0 }

/-- The `match attr.key` body of the `<layer>` / `<objectgroup>` arms; note
`visible` is the comparison of the literal with `"1"`. -/
def layerAttrStep (l : LayerAttrs) (k : String) (v : List Nat) : LRes LayerAttrs :=
  if k = "name" then withUtf8 v (fun s => { l with name := s })
  else if k = "visible" then withUtf8 v (fun s => { l with visible := s == "1" })
  else if k = "opacity" then withUtf8 v (fun s => { l with opacity := (parseF32 s).getD ⟨"1.0"⟩ })
  else if k = "offsetx" then withUtf8 v (fun s => { l with offset_x := (parseI32 s).getD 0 })
  else if k = "offsety" then withUtf8 v (fun s => { l with offset_y := (parseI32 s).getD 0 })
  else .ok l

/-- Attributes of `<object>`. -/
structure ObjectAttrs where
  name : String
  obj_type : String
  x : F32
  y : F32
  width : F32
  height : F32
  rotation : F32
  visible : Bool
deriving DecidableEq

/-- Defaults of the `<object>` attribute loop. -/
def objectAttrsDefault : ObjectAttrs :=
  { name := "", obj_type := "", x := ⟨"0.0"⟩, y := ⟨"0.0"⟩, width := ⟨"0.0"⟩,
    height := ⟨"0.0"⟩, rotation := ⟨"0.0"⟩, visible := true }

/-- The `match attr.key` body of the `<object>` arm. -/
def objectAttrStep (o : ObjectAttrs) (k : String) (v : List Nat) : LRes ObjectAttrs :=
  if k = "name" then withUtf8 v (fun s => { o with name := s })
  else if k = "type" then withUtf8 v (fun s => { o with obj_type := s })
  else if k = "x" then withUtf8 v (fun s => { o with x := (parseF32 s).getD ⟨"0.0"⟩ })
  else if k = "y" then withUtf8 v (fun s => { o with y := (parseF32 s).getD ⟨"0.0"⟩ })
  else if k = "width" then withUtf8 v (fun s => { o with width := (parseF32 s).getD ⟨"0.0"⟩ })
  else if k = "height" then withUtf8 v (fun s => { o with height := (parseF32 s).getD ⟨"0.0"⟩ })
  else if k = "rotation" then withUtf8 v (fun s => { o with rotation := (parseF32 s).getD ⟨"0.0"⟩ })
  else if k = "visible" then withUtf8 v (fun s => { o with visible := s == "1" })
  else .ok o

-- ============================================================
-- CSV tile-grid decoding
-- ============================================================

/-- Model of `text.split(',').filter_map(|s| s.trim().parse::<u32>().ok())`: the
cell values actually kept, in order. -/
def parseCells (cells : List (List Char)) : List Nat :=
  cells.filterMap (fun c => parseU32 (String.mk (rustTrim c)))

/-- The full CSV pipeline applied to one text event. -/
def parseCsv (s : String) : List Nat := parseCells (splitOnComma s.toList)

/-- The `for (idx, gid_with_flags) in tiles.iter().enumerate()` insert
loop.  A raw value of 0 is skipped; otherwise `x`/`y` come from `%`/`/` by
the map width (a Rust panic when the width is 0), flip flags from the top
three bits, `gid` from the 29-bit mask, and the row is inserted with
`tile_id = count(tiled_tile)`.  `tileRow` is the record built for one
non-zero cell. -/
def tileRow (layer_id w tile_id idx gid_with_flags : Nat) : TiledTile :=
  { tile_id
    layer_id
    x := (idx % 4294967296) % w
    y := (idx % 4294967296) / w
    gid := gid_with_flags &&& 0x1FFFFFFF
    flip_h := gid_with_flags &&& 0x80000000 != 0
    flip_v := gid_with_flags &&& 0x40000000 != 0
    flip_d := gid_with_flags &&& 0x20000000 != 0 }

/-- See the doc comment above: one loop iteration per enumerated cell. -/
def tileLoop (layer_id w : Nat) (db : Db) : List (Nat × Nat) → Db × LRes Unit
  | [] => (db, .ok ())
  | (idx, gid_with_flags) :: rest =>
    if gid_with_flags = 0 then tileLoop layer_id w db rest
    else if w = 0 then (db, .panic remZeroPanicMsg)
    else
      match db.insertTile (tileRow layer_id w db.tiles.length idx gid_with_flags) with
      | .ok db2 => tileLoop layer_id w db2 rest
      | .error m => (db, .err m)

-- ============================================================
-- The streaming state machine (load_tmx_map_from_str)
-- ============================================================

/-- The mutable locals of `load_tmx_map_from_str` that persist across
events. -/
structure LoadState where
  width : Nat
  height : Nat
  tile_width : Nat
  tile_height : Nat
  orientation : String
  background_color : Option String
  current_layer_id : Option Nat
  current_layer_type : String
  in_data_element : Bool
  tileset_counter : Nat
deriving DecidableEq

/-- Initial values of the loader's locals. -/
def initLoadState : LoadState :=
  { width := 0, height := 0, tile_width := 0, tile_height := 0,
    orientation := "orthogonal", background_color := none,
    current_layer_id := none, current_layer_type := "",
    in_data_element := false, tileset_counter := 0 }

/-- One iteration of the event loop of `load_tmx_map_from_str` (events
other than `Eof`, which terminates the loop in the driver below).  Returns
the database as reached so far even on error or panic. -/
def processEvent (map_id : Nat) (db : Db) (st : LoadState) :
    XmlEvent → Db × LRes LoadState
  | .start name attrs =>
    if name = "map" then
      let init : MapAttrs :=
        { width := st.width
          height := st.height
          tile_width := st.tile_width
          tile_height := st.tile_height
          orientation := st.orientation
          background_color := st.background_color }
      match attrFold mapAttrStep init attrs with
      | .ok m =>
        let st2 : LoadState :=
          { st with
            width := m.width
            height := m.height
            tile_width := m.tile_width
            tile_height := m.tile_height
            orientation := m.orientation
            background_color := m.background_color }
        (db, .ok st2)
      | .err m => (db, .err m)
      | .panic m => (db, .panic m)
    else if name = "tileset" then
      let init : TilesetAttrs :=
        { name := ""
          ts_tile_width := 0
          ts_tile_height := 0
          tile_count := 0
          columns := 0 }
      match attrFold tilesetAttrStep init attrs with
      | .ok t =>
        let tileset_id := db.tilesets.length % 4294967296
        let row : TiledTileset :=
          { tileset_id
            map_id
            tileset_index := st.tileset_counter
            name := t.name
            tile_width := t.ts_tile_width
            tile_height := t.ts_tile_height
            tile_count := t.tile_count
            columns := t.columns
            image_source := none
            image_width := none
            image_height := none }
        match db.insertTileset row with
        | .ok db2 => (db2, .ok { st with tileset_counter := st.tileset_counter + 1 })
        | .error m => (db, .err m)
      | .err m => (db, .err m)
      | .panic m => (db, .panic m)
    else if name = "layer" then
      match attrFold layerAttrStep layerAttrsDefault attrs with
      | .ok l =>
        let layer_id := db.layers.length % 4294967296
        let row : TiledLayer :=
          { layer_id
            map_id
            name := l.name
            layer_type := "tile"
            visible := l.visible
            opacity := l.opacity
            offset_x := l.offset_x
            offset_y := l.offset_y
            z_order := layer_id }
        match db.insertLayer row with
        | .ok db2 =>
          (db2, .ok { st with current_layer_id := some layer_id, current_layer_type := "tile" })
        | .error m => (db, .err m)
      | .err m => (db, .err m)
      | .panic m => (db, .panic m)
    else if name = "objectgroup" then
      match attrFold layerAttrStep layerAttrsDefault attrs with
      | .ok l =>
        let layer_id := db.layers.length % 4294967296
        let row : TiledLayer :=
          { layer_id
            map_id
            name := l.name
            layer_type := "object"
            visible := l.visible
            opacity := l.opacity
            offset_x := l.offset_x
            offset_y := l.offset_y
            z_order := layer_id }
        match db.insertLayer row with
        | .ok db2 =>
          (db2, .ok { st with current_layer_id := some layer_id, current_layer_type := "object" })
        | .error m => (db, .err m)
      | .err m => (db, .err m)
      | .panic m => (db, .panic m)
    else if name = "object" then
      match st.current_layer_id with
      | none => (db, .ok st)
      | some layer_id =>
        match attrFold objectAttrStep objectAttrsDefault attrs with
        | .ok o =>
          let object_id := db.objects.length
          let shape := if f32IsZero o.width && f32IsZero o.height
            then "point" else "rectangle"
          let row : TiledObject :=
            { object_id
              layer_id
              name := o.name
              obj_type := o.obj_type
              x := o.x
              y := o.y
              width := o.width
              height := o.height
              rotation := o.rotation
              visible := o.visible
              shape }
          match db.insertObject row with
          | .ok db2 => (db2, .ok st)
          | .error m => (db, .err m)
        | .err m => (db, .err m)
        | .panic m => (db, .panic m)
    else if name = "data" then
      (db, .ok { st with in_data_element := true })
    else (db, .ok st)
  | .text s =>
    if st.in_data_element && st.current_layer_type == "tile" then
      match st.current_layer_id with
      | some layer_id =>
        match tileLoop layer_id st.width db ((parseCsv s).enum) with
        | (db2, .ok ()) => (db2, .ok st)
        | (db2, .err m) => (db2, .err m)
        | (db2, .panic m) => (db2, .panic m)
      | none => (db, .ok st)
    else (db, .ok st)
  | .endE name =>
    if name = "layer" || name = "objectgroup" then
      (db, .ok { st with current_layer_id := none, current_layer_type := "" })
    else if name = "data" then
      (db, .ok { st with in_data_element := false })
    else (db, .ok st)
  | .eof => (db, .ok st)
  | .errEv m => (db, .err ("XML parse error: " ++ m))

/-- The event loop: `Ok(Event::Eof) => break`; an error or panic stops
processing and is returned together with the rows written so far. -/
def runEvents (map_id : Nat) : Db → LoadState → List XmlEvent → Db × LRes LoadState
  | db, st, [] => (db, .ok st)
  | db, st, .eof :: _ => (db, .ok st)
  | db, st, ev :: rest =>
    match processEvent map_id db st ev with
    | (db2, .ok st2) => runEvents map_id db2 st2 rest
    | (db2, .err m) => (db2, .err m)
    | (db2, .panic m) => (db2, .panic m)

/-- Model of `load_tmx_map_from_str`: allocate `map_id = count(tiled_map) as u32`
first, run the event loop, and insert the Map row only after parsing is
complete. -/
def load_tmx_map_from_str (db : Db) (map_name : String) (evs : List XmlEvent) :
    Db × LRes Nat :=
  let map_id := db.maps.length % 4294967296
  match runEvents map_id db initLoadState evs with
  | (db2, .ok st) =>
    let row : TiledMap :=
      { map_id
        name := map_name
        width := st.width
        height := st.height
        tile_width := st.tile_width
        tile_height := st.tile_height
        orientation := st.orientation
        background_color := st.background_color }
    match db2.insertMap row with
    | .ok db3 => (db3, .ok map_id)
    | .error m => (db2, .err m)
  | (db2, .err m) => (db2, .err m)
  | (db2, .panic m) => (db2, .panic m)

-- ============================================================
-- Chunked ("infinite") tile layers: the Infinite arm of
-- store_tile_layer in the tree-based path
-- ============================================================

/-- A tile as the external `tiled` crate hands it to `store_tile_layer`:
`tile.id()` plus flip flags. -/
structure ChunkTile where
  id : Nat
  flip_h : Bool
  flip_v : Bool
  flip_d : Bool
deriving DecidableEq

/-- The `i32 as u32` cast: two's-complement reinterpretation, so negative
values wrap modulo `2^32`. -/
def i32AsU32 (n : Int) : Nat := (n % 4294967296).toNat

/-- Iteration order of `for y in 0..16 { for x in 0..16 { .. } }` as the
list of `(x, y)` pairs visited. -/
def chunkCells : List (Nat × Nat) :=
  (List.range 16).flatMap (fun y => (List.range 16).map (fun x => (x, y)))

/-- Body of the per-chunk double loop: for each visited cell, if
`chunk.get_tile(x, y)` is occupied, insert a Tile row whose world
coordinates are `(coords.0 * 16 + x) as u32`, `(coords.1 * 16 + y) as u32`
and whose `tile_id` is `count(tiled_tile)`.  `chunkTileRow` is the record
built for one occupied cell. -/
def chunkTileRow (layer_id : Nat) (coords : Int × Int) (tile_id x y : Nat)
    (tile : ChunkTile) : TiledTile :=
  { tile_id
    layer_id
    x := i32AsU32 (coords.1 * 16 + (x : Int))
    y := i32AsU32 (coords.2 * 16 + (y : Int))
    gid := tile.id
    flip_h := tile.flip_h
    flip_v := tile.flip_v
    flip_d := tile.flip_d }

/-- See the doc comment above: one loop body per visited cell. -/
def chunkLoop (layer_id : Nat) (coords : Int × Int)
    (chunk : Nat → Nat → Option ChunkTile) (db : Db) :
    List (Nat × Nat) → Db × Except String Unit
  | [] => (db, .ok ())
  | (x, y) :: rest =>
    match chunk x y with
    | none => chunkLoop layer_id coords chunk db rest
    | some tile =>
      match db.insertTile (chunkTileRow layer_id coords db.tiles.length x y tile) with
      | .ok db2 => chunkLoop layer_id coords chunk db2 rest
      | .error m => (db, .error m)

/-- The `TileLayer::Infinite` arm of `store_tile_layer`: iterate the
chunks of the layer, each a 16×16 extent. -/
def store_tile_layer_infinite (layer_id : Nat) (db : Db) :
    List ((Int × Int) × (Nat → Nat → Option ChunkTile)) → Db × Except String Unit
  | [] => (db, .ok ())
  | (coords, chunk) :: rest =>
    match chunkLoop layer_id coords chunk db chunkCells with
    | (db2, .ok ()) => store_tile_layer_infinite layer_id db2 rest
    | (db2, .error m) => (db2, .error m)

-- ============================================================
-- Specification-side descriptions (written from the spec's words,
-- to be compared with the functions above)
-- ============================================================

/-- The tile records §4.3 of the spec promises for a CSV cell list: cell
`i` at `x = i mod width`, `y = i div width`; raw 0 skipped; bit 31/30/29
as the flip flags and the 29-bit mask (`mod 2^29`) as the gid; ids
allocated sequentially from `idBase`. -/
def specTiles (layer_id w idBase idx : Nat) : List Nat → List TiledTile
  | [] => []
  | raw :: rest =>
    if raw = 0 then specTiles layer_id w idBase (idx + 1) rest
    else
      { tile_id := idBase
        layer_id
        x := idx % w
        y := idx / w
        gid := raw % 2 ^ 29
        flip_h := raw.testBit 31
        flip_v := raw.testBit 30
        flip_d := raw.testBit 29 } :: specTiles layer_id w (idBase + 1) (idx + 1) rest

/-- The rows the claim about chunked storage promises for the occupied
cells of one chunk, in visit order: world coordinates are the chunk origin
times 16 plus the local cell, reinterpreted `i32 → u32` (wrapping). -/
def specChunkTiles (layer_id idBase : Nat) (cx cy : Int) :
    List ((Nat × Nat) × ChunkTile) → List TiledTile
  | [] => []
  | ((lx, ly), t) :: rest =>
    { tile_id := idBase
      layer_id
      x := i32AsU32 (cx * 16 + (lx : Int))
      y := i32AsU32 (cy * 16 + (ly : Int))
      gid := t.id
      flip_h := t.flip_h
      flip_v := t.flip_v
      flip_d := t.flip_d } :: specChunkTiles layer_id (idBase + 1) cx cy rest

/-- The occupied cells of a chunk, in visit order. -/
def occupiedCells (chunk : Nat → Nat → Option ChunkTile) :
    List ((Nat × Nat) × ChunkTile) :=
  chunkCells.filterMap (fun p => (chunk p.1 p.2).map (fun t => (p, t)))

-- ============================================================
-- Abstractions used to state and prove the properties
-- ============================================================

/-- The control-relevant part of the loader state: whether a layer context
is open, its kind, and whether we are inside `<data>`.  These determine
every control-flow decision of the event loop; unlike the numeric layer id
they evolve independently of the database. -/
structure Ctl where
  layerSet : Bool
  layerType : String
  inData : Bool
deriving DecidableEq

/-- Control abstraction of a loader state. -/
def LoadState.ctl (st : LoadState) : Ctl :=
  ⟨st.current_layer_id.isSome, st.current_layer_type, st.in_data_element⟩

/-- How one successfully processed event changes the control state. -/
def ctlStep (c : Ctl) : XmlEvent → Ctl
  | .start name _ =>
    if name = "layer" then ⟨true, "tile", c.inData⟩
    else if name = "objectgroup" then ⟨true, "object", c.inData⟩
    else if name = "data" then { c with inData := true }
    else c
  | .endE name =>
    if name = "layer" || name = "objectgroup" then ⟨false, "", c.inData⟩
    else if name = "data" then { c with inData := false }
    else c
  | _ => c

/-- Number of rows a successfully processed event adds to each non-map
table. -/
structure Counts where
  layers : Nat
  tiles : Nat
  tilesets : Nat
  objects : Nat
deriving DecidableEq

/-- Pointwise sum of row counts. -/
def Counts.add (a b : Counts) : Counts :=
  ⟨a.layers + b.layers, a.tiles + b.tiles, a.tilesets + b.tilesets,
    a.objects + b.objects⟩

/-- Rows added by one successfully processed event, as a function of the
event and the control state alone. -/
def evCounts (c : Ctl) : XmlEvent → Counts
  | .start name _ =>
    if name = "tileset" then ⟨0, 0, 1, 0⟩
    else if name = "layer" then ⟨1, 0, 0, 0⟩
    else if name = "objectgroup" then ⟨1, 0, 0, 0⟩
    else if name = "object" then
      (if c.layerSet then ⟨0, 0, 0, 1⟩ else ⟨0, 0, 0, 0⟩)
    else ⟨0, 0, 0, 0⟩
  | .text s =>
    if c.inData && c.layerType == "tile" && c.layerSet then
      ⟨0, (parseCsv s).countP (fun r => r != 0), 0, 0⟩
    else ⟨0, 0, 0, 0⟩
  | _ => ⟨0, 0, 0, 0⟩

/-- Control state after a successfully processed event list (stopping at
`Eof` like the event loop). -/
def ctlRun (c : Ctl) : List XmlEvent → Ctl
  | [] => c
  | .eof :: _ => c
  | ev :: rest => ctlRun (ctlStep c ev) rest

/-- Rows added by a successfully processed event list. -/
def countsRun (c : Ctl) : List XmlEvent → Counts
  | [] => ⟨0, 0, 0, 0⟩
  | .eof :: _ => ⟨0, 0, 0, 0⟩
  | ev :: rest => Counts.add (evCounts c ev) (countsRun (ctlStep c ev) rest)

/-- Every stored tile id is below the row count — the invariant the
count-based allocator relies on, and trivially true of the empty store. -/
def Db.tilesFresh (db : Db) : Prop :=
  ∀ t ∈ db.tiles, t.tile_id < db.tiles.length

/-- Database `b` extends `a`: every table of `b` is the corresponding table of `a`
plus newly appended rows — i.e. nothing previously written was removed or
rewritten. -/
def Db.Extends (b a : Db) : Prop :=
  (∃ l, b.maps = a.maps ++ l) ∧ (∃ l, b.layers = a.layers ++ l) ∧
  (∃ l, b.tiles = a.tiles ++ l) ∧ (∃ l, b.tilesets = a.tilesets ++ l) ∧
  (∃ l, b.objects = a.objects ++ l) ∧ (∃ l, b.properties = a.properties ++ l)

/-- The empty store. -/
def emptyDb : Db := ⟨[], [], [], [], [], []⟩

/-- A small complete document (map 2x1, one tile layer with cells
`1,0,2684354565`), used by concrete witnesses.  Attribute values are UTF-8
bytes: `[50]` is `"2"`, `[49]` is `"1"`. -/
def sampleDoc : List XmlEvent :=
  [ .start "map" [.ok "width" [50], .ok "height" [49]]
  , .start "layer" []
  , .start "data" []
  , .text "1,0,2684354565"
  , .endE "data"
  , .endE "layer"
  , .eof ]

-- ============================================================
-- Helper lemmas
-- ============================================================

lemma insertMap_ok {db : Db} {r : TiledMap} {db2 : Db}
    (h : db.insertMap r = .ok db2) : db2 = { db with maps := db.maps ++ [r] } := by
  unfold Db.insertMap at h
  split at h
  · cases h
  · cases h; rfl

lemma insertLayer_ok {db : Db} {r : TiledLayer} {db2 : Db}
    (h : db.insertLayer r = .ok db2) : db2 = { db with layers := db.layers ++ [r] } := by
  unfold Db.insertLayer at h
  split at h
  · cases h
  · cases h; rfl

lemma insertTile_ok {db : Db} {r : TiledTile} {db2 : Db}
    (h : db.insertTile r = .ok db2) : db2 = { db with tiles := db.tiles ++ [r] } := by
  unfold Db.insertTile at h
  split at h
  · cases h
  · cases h; rfl

lemma insertTileset_ok {db : Db} {r : TiledTileset} {db2 : Db}
    (h : db.insertTileset r = .ok db2) : db2 = { db with tilesets := db.tilesets ++ [r] } := by
  unfold Db.insertTileset at h
  split at h
  · cases h
  · cases h; rfl

lemma insertObject_ok {db : Db} {r : TiledObject} {db2 : Db}
    (h : db.insertObject r = .ok db2) : db2 = { db with objects := db.objects ++ [r] } := by
  unfold Db.insertObject at h
  split at h
  · cases h
  · cases h; rfl

/-- A fresh tile id (`= count`) never collides, so `try_insert` succeeds. -/
lemma insertTile_fresh {db : Db} (hf : db.tilesFresh) {r : TiledTile}
    (hr : r.tile_id = db.tiles.length) :
    db.insertTile r = .ok { db with tiles := db.tiles ++ [r] } := by
  unfold Db.insertTile
  have : db.tiles.any (fun t => t.tile_id == r.tile_id) = false := by
    rw [List.any_eq_false]
    intro t ht
    have := hf t ht
    simp only [beq_iff_eq]
    omega
  rw [this]
  simp

/-- Appending a row with id `= count` preserves freshness. -/
lemma tilesFresh_append {db : Db} (hf : db.tilesFresh) {r : TiledTile}
    (hr : r.tile_id = db.tiles.length) :
    ({ db with tiles := db.tiles ++ [r] } : Db).tilesFresh := by
  intro t ht
  simp only [List.mem_append, List.mem_singleton] at ht
  simp only [List.length_append, List.length_singleton]
  rcases ht with ht | rfl
  · have := hf t ht; omega
  · omega

lemma and_two_pow_bne (raw i : Nat) : (raw &&& 2 ^ i != 0) = raw.testBit i := by
  rw [Nat.and_two_pow]
  cases h : raw.testBit i <;> simp [pow_ne_zero i (by norm_num : (2 : ℕ) ≠ 0)]

lemma countP_enumFrom (f : Nat → Bool) :
    ∀ (cells : List Nat) (n : Nat),
      (List.enumFrom n cells).countP (fun p => f p.2) = cells.countP f
  | [], _ => rfl
  | c :: cs, n => by
    simp only [List.enumFrom, List.countP_cons, countP_enumFrom f cs (n + 1)]

lemma extends_refl (db : Db) : db.Extends db :=
  ⟨⟨[], by simp⟩, ⟨[], by simp⟩, ⟨[], by simp⟩, ⟨[], by simp⟩, ⟨[], by simp⟩,
    ⟨[], by simp⟩⟩

lemma extends_trans {a b c : Db} (h1 : b.Extends a) (h2 : c.Extends b) :
    c.Extends a := by
  obtain ⟨⟨l1, e1⟩, ⟨l2, e2⟩, ⟨l3, e3⟩, ⟨l4, e4⟩, ⟨l5, e5⟩, ⟨l6, e6⟩⟩ := h1
  obtain ⟨⟨m1, f1⟩, ⟨m2, f2⟩, ⟨m3, f3⟩, ⟨m4, f4⟩, ⟨m5, f5⟩, ⟨m6, f6⟩⟩ := h2
  exact ⟨⟨l1 ++ m1, by simp [f1, e1]⟩, ⟨l2 ++ m2, by simp [f2, e2]⟩,
    ⟨l3 ++ m3, by simp [f3, e3]⟩, ⟨l4 ++ m4, by simp [f4, e4]⟩,
    ⟨l5 ++ m5, by simp [f5, e5]⟩, ⟨l6 ++ m6, by simp [f6, e6]⟩⟩

lemma tileLoop_maps (layer_id w : Nat) :
    ∀ (ps : List (Nat × Nat)) (db : Db),
      (tileLoop layer_id w db ps).1.maps = db.maps := by
  intro ps
  induction ps with
  | nil => intro db; rfl
  | cons p rest ih =>
    intro db
    obtain ⟨idx, raw⟩ := p
    rw [tileLoop]
    by_cases h0 : raw = 0
    · simp only [if_pos h0]; exact ih db
    · simp only [if_neg h0]
      by_cases hw : w = 0
      · simp only [if_pos hw]
      · simp only [if_neg hw]
        rcases hI : db.insertTile _ with m | db2
        · rfl
        · have h2 := insertTile_ok hI
          simp only [ih]
          rw [h2]

lemma tileLoop_extends (layer_id w : Nat) :
    ∀ (ps : List (Nat × Nat)) (db : Db),
      ((tileLoop layer_id w db ps).1).Extends db := by
  intro ps
  induction ps with
  | nil => intro db; exact extends_refl db
  | cons p rest ih =>
    intro db
    obtain ⟨idx, raw⟩ := p
    rw [tileLoop]
    by_cases h0 : raw = 0
    · simp only [if_pos h0]; exact ih db
    · simp only [if_neg h0]
      by_cases hw : w = 0
      · simp only [if_pos hw]; exact extends_refl db
      · simp only [if_neg hw]
        rcases hI : db.insertTile _ with m | db2
        · exact extends_refl db
        · have h2 := insertTile_ok hI
          simp only []
          refine extends_trans ?_ (ih db2)
          rw [h2]
          exact ⟨⟨[], by simp⟩, ⟨[], by simp⟩, ⟨_, rfl⟩, ⟨[], by simp⟩,
            ⟨[], by simp⟩, ⟨[], by simp⟩⟩

lemma tileLoop_cons_skip {layer_id w : Nat} {db : Db} {idx raw : Nat}
    {rest : List (Nat × Nat)} (h0 : raw = 0) :
    tileLoop layer_id w db ((idx, raw) :: rest) = tileLoop layer_id w db rest := by
  rw [tileLoop, if_pos h0]

lemma tileLoop_cons_panic {layer_id w : Nat} {db : Db} {idx raw : Nat}
    {rest : List (Nat × Nat)} (h0 : raw ≠ 0) (hw : w = 0) :
    tileLoop layer_id w db ((idx, raw) :: rest) = (db, .panic remZeroPanicMsg) := by
  rw [tileLoop, if_neg h0, if_pos hw]

lemma tileLoop_cons_ok {layer_id w : Nat} {db db2 : Db} {idx raw : Nat}
    {rest : List (Nat × Nat)} (h0 : raw ≠ 0) (hw : w ≠ 0)
    (hI : db.insertTile (tileRow layer_id w db.tiles.length idx raw) = .ok db2) :
    tileLoop layer_id w db ((idx, raw) :: rest) = tileLoop layer_id w db2 rest := by
  rw [tileLoop, if_neg h0, if_neg hw, hI]

lemma tileLoop_cons_err {layer_id w : Nat} {db : Db} {idx raw : Nat} {m : String}
    {rest : List (Nat × Nat)} (h0 : raw ≠ 0) (hw : w ≠ 0)
    (hI : db.insertTile (tileRow layer_id w db.tiles.length idx raw) = .error m) :
    tileLoop layer_id w db ((idx, raw) :: rest) = (db, .err m) := by
  rw [tileLoop, if_neg h0, if_neg hw, hI]

/-- Characterization of the tile-insert loop over an enumerated cell list
with a positive width and fresh ids: it succeeds and appends exactly the
records the spec describes. -/
lemma tileLoop_enumFrom_spec (layer_id w : Nat) (hw : 0 < w) :
    ∀ (cells : List Nat) (n : Nat) (db : Db), db.tilesFresh →
      n + cells.length ≤ 4294967296 →
      tileLoop layer_id w db (List.enumFrom n cells) =
        ({ db with tiles := db.tiles ++ specTiles layer_id w db.tiles.length n cells },
          .ok ()) := by
  intro cells
  induction cells with
  | nil =>
    intro n db _ _
    simp only [List.enumFrom, specTiles, List.append_nil]
    rfl
  | cons raw cs ih =>
    intro n db hf hb
    have hn : n < 4294967296 := by
      simp only [List.length_cons] at hb; omega
    simp only [List.enumFrom]
    rw [specTiles]
    by_cases h0 : raw = 0
    · rw [tileLoop_cons_skip h0, if_pos h0]
      rw [ih (n + 1) db hf (by simp only [List.length_cons] at hb; omega)]
    · rw [if_neg h0]
      rw [tileLoop_cons_ok h0 (by omega) (insertTile_fresh hf rfl)]
      rw [ih (n + 1) _ (tilesFresh_append hf rfl)
        (by simp only [List.length_cons] at hb; omega)]
      have hmask : raw &&& 536870911 = raw % 2 ^ 29 := by
        have := Nat.and_pow_two_sub_one_eq_mod raw 29
        norm_num at this
        exact this
      have hbit31 : (raw &&& 2147483648 != 0) = raw.testBit 31 := by
        have := and_two_pow_bne raw 31
        norm_num at this
        exact this
      have hbit30 : (raw &&& 1073741824 != 0) = raw.testBit 30 := by
        have := and_two_pow_bne raw 30
        norm_num at this
        exact this
      have hbit29 : (raw &&& 536870912 != 0) = raw.testBit 29 := by
        have := and_two_pow_bne raw 29
        norm_num at this
        exact this
      simp only [tileRow, List.length_append, List.length_singleton, hmask, hbit31,
        hbit30, hbit29, Nat.mod_eq_of_lt hn, List.append_assoc, List.singleton_append]

/-- Under a successful run of the tile-insert loop, the other tables are
untouched and the tile count grows by the number of non-zero cells. -/
lemma tileLoop_ok_counts (layer_id w : Nat) :
    ∀ (ps : List (Nat × Nat)) (db : Db),
      (tileLoop layer_id w db ps).2 = .ok () →
      (tileLoop layer_id w db ps).1.layers = db.layers ∧
      (tileLoop layer_id w db ps).1.tilesets = db.tilesets ∧
      (tileLoop layer_id w db ps).1.objects = db.objects ∧
      (tileLoop layer_id w db ps).1.properties = db.properties ∧
      (tileLoop layer_id w db ps).1.tiles.length =
        db.tiles.length + ps.countP (fun p => p.2 != 0) := by
  intro ps
  induction ps with
  | nil =>
    intro db _
    simp [tileLoop]
  | cons p rest ih =>
    intro db hok
    obtain ⟨idx, raw⟩ := p
    by_cases h0 : raw = 0
    · rw [tileLoop_cons_skip h0] at hok ⊢
      have := ih db hok
      simpa [List.countP_cons, h0] using this
    · by_cases hw : w = 0
      · rw [tileLoop_cons_panic h0 hw] at hok; cases hok
      · rcases hI : db.insertTile (tileRow layer_id w db.tiles.length idx raw)
          with m | db2
        · rw [tileLoop_cons_err h0 hw hI] at hok; cases hok
        · rw [tileLoop_cons_ok h0 hw hI] at hok ⊢
          have h2 := insertTile_ok hI
          subst h2
          have := ih _ hok
          simp only [List.length_append, List.length_singleton] at this
          refine ⟨this.1, this.2.1, this.2.2.1, this.2.2.2.1, ?_⟩
          rw [this.2.2.2.2]
          simp only [List.countP_cons]
          simp [h0]
          omega

/-- With map width 0, any non-zero cell makes the loop panic on `%` by
zero. -/
lemma tileLoop_zero_width_panic (layer_id : Nat) :
    ∀ (ps : List (Nat × Nat)) (db : Db),
      ps.any (fun p => p.2 != 0) = true →
      tileLoop layer_id 0 db ps = (db, .panic remZeroPanicMsg) := by
  intro ps
  induction ps with
  | nil => intro db h; cases h
  | cons p rest ih =>
    intro db h
    obtain ⟨idx, raw⟩ := p
    by_cases h0 : raw = 0
    · rw [tileLoop_cons_skip h0]
      apply ih
      simp only [List.any_cons, h0] at h
      simpa using h
    · exact tileLoop_cons_panic h0 rfl

lemma any_enumFrom (f : Nat → Bool) :
    ∀ (cells : List Nat) (n : Nat),
      (List.enumFrom n cells).any (fun p => f p.2) = cells.any f
  | [], _ => rfl
  | c :: cs, n => by
    simp only [List.enumFrom, List.any_cons, any_enumFrom f cs (n + 1)]

/-- One successfully processed event: the Map table is untouched, each
other table grows by the event's count, and the control state steps
db-independently. -/
lemma processEvent_ok_spec {mid : Nat} {db : Db} {st : LoadState} {ev : XmlEvent}
    {db' : Db} {st' : LoadState}
    (h : processEvent mid db st ev = (db', .ok st')) :
    db'.maps = db.maps ∧
    db'.layers.length = db.layers.length + (evCounts st.ctl ev).layers ∧
    db'.tiles.length = db.tiles.length + (evCounts st.ctl ev).tiles ∧
    db'.tilesets.length = db.tilesets.length + (evCounts st.ctl ev).tilesets ∧
    db'.objects.length = db.objects.length + (evCounts st.ctl ev).objects ∧
    db'.properties = db.properties ∧
    st'.ctl = ctlStep st.ctl ev := by
  cases ev with
  | start name attrs =>
    simp only [processEvent] at h
    by_cases h1 : name = "map"
    · subst h1
      rw [if_pos rfl] at h
      split at h
      · rename_i m hA
        rw [Prod.mk.injEq] at h
        obtain ⟨hdb, hst⟩ := h
        cases hst
        subst hdb
        simp [evCounts, ctlStep, LoadState.ctl]
      · simp at h
      · simp at h
    · rw [if_neg h1] at h
      by_cases h2 : name = "tileset"
      · subst h2
        rw [if_pos rfl] at h
        split at h
        · rename_i t hA
          split at h
          · rename_i db2 hI
            rw [Prod.mk.injEq] at h
            obtain ⟨hdb, hst⟩ := h
            cases hst
            subst hdb
            have h3 := insertTileset_ok hI
            subst h3
            simp [evCounts, ctlStep, LoadState.ctl]
          · simp at h
        · simp at h
        · simp at h
      · rw [if_neg h2] at h
        by_cases h3 : name = "layer"
        · subst h3
          rw [if_pos rfl] at h
          split at h
          · rename_i l hA
            split at h
            · rename_i db2 hI
              rw [Prod.mk.injEq] at h
              obtain ⟨hdb, hst⟩ := h
              cases hst
              subst hdb
              have h4 := insertLayer_ok hI
              subst h4
              simp [evCounts, ctlStep, LoadState.ctl]
            · simp at h
          · simp at h
          · simp at h
        · rw [if_neg h3] at h
          by_cases h4 : name = "objectgroup"
          · subst h4
            rw [if_pos rfl] at h
            split at h
            · rename_i l hA
              split at h
              · rename_i db2 hI
                rw [Prod.mk.injEq] at h
                obtain ⟨hdb, hst⟩ := h
                cases hst
                subst hdb
                have h5 := insertLayer_ok hI
                subst h5
                simp [evCounts, ctlStep, LoadState.ctl]
              · simp at h
            · simp at h
            · simp at h
          · rw [if_neg h4] at h
            by_cases h5 : name = "object"
            · subst h5
              rw [if_pos rfl] at h
              split at h
              · rename_i hnone
                rw [Prod.mk.injEq] at h
                obtain ⟨hdb, hst⟩ := h
                cases hst
                subst hdb
                simp [evCounts, ctlStep, LoadState.ctl, hnone]
              · rename_i lid hsome
                split at h
                · rename_i o hA
                  split at h
                  · rename_i db2 hI
                    rw [Prod.mk.injEq] at h
                    obtain ⟨hdb, hst⟩ := h
                    cases hst
                    subst hdb
                    have h6 := insertObject_ok hI
                    subst h6
                    simp [evCounts, ctlStep, LoadState.ctl, hsome]
                  · simp at h
                · simp at h
                · simp at h
            · rw [if_neg h5] at h
              by_cases h6 : name = "data"
              · subst h6
                rw [if_pos rfl] at h
                rw [Prod.mk.injEq] at h
                obtain ⟨hdb, hst⟩ := h
                cases hst
                subst hdb
                simp [evCounts, ctlStep, LoadState.ctl]
              · rw [if_neg h6] at h
                rw [Prod.mk.injEq] at h
                obtain ⟨hdb, hst⟩ := h
                cases hst
                subst hdb
                simp [evCounts, ctlStep, LoadState.ctl, h1, h2, h3, h4, h5, h6]
  | text s =>
    simp only [processEvent] at h
    by_cases hc : (st.in_data_element && st.current_layer_type == "tile") = true
    · rw [if_pos hc] at h
      split at h
      · rename_i lid hsome
        split at h
        · rename_i db2 hT
          rw [Prod.mk.injEq] at h
          obtain ⟨hdb, hst⟩ := h
          cases hst
          subst hdb
          have hT2 : (tileLoop lid st.width db ((parseCsv s).enum)).2 = .ok () := by
            rw [hT]
          have hcounts := tileLoop_ok_counts lid st.width ((parseCsv s).enum) db hT2
          have hmaps := tileLoop_maps lid st.width ((parseCsv s).enum) db
          rw [hT] at hcounts hmaps
          simp only [] at hcounts hmaps
          rw [Bool.and_eq_true] at hc
          have hctl : (evCounts st.ctl (XmlEvent.text s)) =
              ⟨0, (parseCsv s).countP (fun r => r != 0), 0, 0⟩ := by
            simp [evCounts, LoadState.ctl, hc.1, hc.2, hsome]
          rw [hctl]
          refine ⟨hmaps, by simp [hcounts.1], ?_, by simp [hcounts.2.1],
            by simp [hcounts.2.2.1], hcounts.2.2.2.1, by simp [ctlStep]⟩
          rw [hcounts.2.2.2.2]
          simp only [List.enum]
          exact congrArg (HAdd.hAdd db.tiles.length)
            (countP_enumFrom (fun r => r != 0) (parseCsv s) 0)
        · rename_i db2 m hT
          simp at h
        · rename_i db2 m hT
          simp at h
      · rename_i hnone
        rw [Prod.mk.injEq] at h
        obtain ⟨hdb, hst⟩ := h
        cases hst
        subst hdb
        rw [Bool.and_eq_true] at hc
        simp [evCounts, ctlStep, LoadState.ctl, hnone, hc.1, hc.2]
    · rw [if_neg hc] at h
      rw [Prod.mk.injEq] at h
      obtain ⟨hdb, hst⟩ := h
      cases hst
      subst hdb
      have : (evCounts st.ctl (XmlEvent.text s)) = ⟨0, 0, 0, 0⟩ := by
        simp only [evCounts, LoadState.ctl]
        rw [if_neg ?_]
        intro hcc
        rw [Bool.and_eq_true, Bool.and_eq_true] at hcc
        exact hc (by rw [Bool.and_eq_true]; exact ⟨hcc.1.1, hcc.1.2⟩)
      rw [this]
      simp [ctlStep]
  | endE name =>
    simp only [processEvent] at h
    by_cases h1 : (name = "layer" || name = "objectgroup" : Bool) = true
    · rw [if_pos h1] at h
      rw [Prod.mk.injEq] at h
      obtain ⟨hdb, hst⟩ := h
      cases hst
      subst hdb
      simp only [evCounts, ctlStep, LoadState.ctl]
      rw [if_pos h1]
      simp
    · rw [if_neg h1] at h
      by_cases h2 : name = "data"
      · subst h2
        rw [if_pos rfl] at h
        rw [Prod.mk.injEq] at h
        obtain ⟨hdb, hst⟩ := h
        cases hst
        subst hdb
        simp only [evCounts, ctlStep, LoadState.ctl]
        rw [if_neg h1]
        simp
      · rw [if_neg h2] at h
        rw [Prod.mk.injEq] at h
        obtain ⟨hdb, hst⟩ := h
        cases hst
        subst hdb
        simp only [evCounts, ctlStep, LoadState.ctl]
        rw [if_neg h1, if_neg h2]
        simp
  | eof =>
    simp only [processEvent] at h
    rw [Prod.mk.injEq] at h
    obtain ⟨hdb, hst⟩ := h
    cases hst
    subst hdb
    simp [evCounts, ctlStep]
  | errEv m =>
    simp only [processEvent] at h
    rw [Prod.mk.injEq] at h
    obtain ⟨hdb, hst⟩ := h
    cases hst

/-- An insert into a non-map table extends the database. -/
lemma extends_append_layers (db : Db) (l : List TiledLayer) :
    ({ db with layers := db.layers ++ l } : Db).Extends db :=
  ⟨⟨[], by simp⟩, ⟨l, rfl⟩, ⟨[], by simp⟩, ⟨[], by simp⟩, ⟨[], by simp⟩, ⟨[], by simp⟩⟩

lemma extends_append_tilesets (db : Db) (l : List TiledTileset) :
    ({ db with tilesets := db.tilesets ++ l } : Db).Extends db :=
  ⟨⟨[], by simp⟩, ⟨[], by simp⟩, ⟨[], by simp⟩, ⟨l, rfl⟩, ⟨[], by simp⟩, ⟨[], by simp⟩⟩

lemma extends_append_objects (db : Db) (l : List TiledObject) :
    ({ db with objects := db.objects ++ l } : Db).Extends db :=
  ⟨⟨[], by simp⟩, ⟨[], by simp⟩, ⟨[], by simp⟩, ⟨[], by simp⟩, ⟨l, rfl⟩, ⟨[], by simp⟩⟩

lemma extends_append_maps (db : Db) (l : List TiledMap) :
    ({ db with maps := db.maps ++ l } : Db).Extends db :=
  ⟨⟨l, rfl⟩, ⟨[], by simp⟩, ⟨[], by simp⟩, ⟨[], by simp⟩, ⟨[], by simp⟩, ⟨[], by simp⟩⟩

/-- Whatever the outcome, one processed event never touches the Map table
and only appends to the others ("no rollback" at the event level). -/
lemma processEvent_untouched (mid : Nat) (db : Db) (st : LoadState) (ev : XmlEvent) :
    (processEvent mid db st ev).1.maps = db.maps ∧
    ((processEvent mid db st ev).1).Extends db := by
  cases ev with
  | start name attrs =>
    simp only [processEvent]
    by_cases h1 : name = "map"
    · subst h1; rw [if_pos rfl]
      split <;> exact ⟨rfl, extends_refl db⟩
    · rw [if_neg h1]
      by_cases h2 : name = "tileset"
      · subst h2; rw [if_pos rfl]
        split
        · rename_i t hA
          split
          · rename_i db2 hI
            have h3 := insertTileset_ok hI
            subst h3
            exact ⟨rfl, extends_append_tilesets db _⟩
          · exact ⟨rfl, extends_refl db⟩
        · exact ⟨rfl, extends_refl db⟩
        · exact ⟨rfl, extends_refl db⟩
      · rw [if_neg h2]
        by_cases h3 : name = "layer"
        · subst h3; rw [if_pos rfl]
          split
          · rename_i l hA
            split
            · rename_i db2 hI
              have h4 := insertLayer_ok hI
              subst h4
              exact ⟨rfl, extends_append_layers db _⟩
            · exact ⟨rfl, extends_refl db⟩
          · exact ⟨rfl, extends_refl db⟩
          · exact ⟨rfl, extends_refl db⟩
        · rw [if_neg h3]
          by_cases h4 : name = "objectgroup"
          · subst h4; rw [if_pos rfl]
            split
            · rename_i l hA
              split
              · rename_i db2 hI
                have h5 := insertLayer_ok hI
                subst h5
                exact ⟨rfl, extends_append_layers db _⟩
              · exact ⟨rfl, extends_refl db⟩
            · exact ⟨rfl, extends_refl db⟩
            · exact ⟨rfl, extends_refl db⟩
          · rw [if_neg h4]
            by_cases h5 : name = "object"
            · subst h5; rw [if_pos rfl]
              split
              · exact ⟨rfl, extends_refl db⟩
              · rename_i lid hsome
                split
                · rename_i o hA
                  split
                  · rename_i db2 hI
                    have h6 := insertObject_ok hI
                    subst h6
                    exact ⟨rfl, extends_append_objects db _⟩
                  · exact ⟨rfl, extends_refl db⟩
                · exact ⟨rfl, extends_refl db⟩
                · exact ⟨rfl, extends_refl db⟩
            · rw [if_neg h5]
              by_cases h6 : name = "data"
              · subst h6; rw [if_pos rfl]
                exact ⟨rfl, extends_refl db⟩
              · rw [if_neg h6]
                exact ⟨rfl, extends_refl db⟩
  | text s =>
    simp only [processEvent]
    split
    · split
      · rename_i lid hsome
        split
        · rename_i db2 hT
          have hm := tileLoop_maps lid st.width ((parseCsv s).enum) db
          have he := tileLoop_extends lid st.width ((parseCsv s).enum) db
          rw [hT] at hm he
          exact ⟨hm, he⟩
        · rename_i db2 m hT
          have hm := tileLoop_maps lid st.width ((parseCsv s).enum) db
          have he := tileLoop_extends lid st.width ((parseCsv s).enum) db
          rw [hT] at hm he
          exact ⟨hm, he⟩
        · rename_i db2 m hT
          have hm := tileLoop_maps lid st.width ((parseCsv s).enum) db
          have he := tileLoop_extends lid st.width ((parseCsv s).enum) db
          rw [hT] at hm he
          exact ⟨hm, he⟩
      · exact ⟨rfl, extends_refl db⟩
    · exact ⟨rfl, extends_refl db⟩
  | endE name =>
    simp only [processEvent]
    split
    · exact ⟨rfl, extends_refl db⟩
    · split
      · exact ⟨rfl, extends_refl db⟩
      · exact ⟨rfl, extends_refl db⟩
  | eof => exact ⟨rfl, extends_refl db⟩
  | errEv m => exact ⟨rfl, extends_refl db⟩

/-- Whatever the outcome, the event loop never touches the Map table and
only appends to the others. -/
lemma runEvents_untouched (mid : Nat) :
    ∀ (evs : List XmlEvent) (db : Db) (st : LoadState),
      (runEvents mid db st evs).1.maps = db.maps ∧
      ((runEvents mid db st evs).1).Extends db := by
  intro evs
  induction evs with
  | nil => intro db st; exact ⟨rfl, extends_refl db⟩
  | cons ev rest ih =>
    intro db st
    have h1 := processEvent_untouched mid db st ev
    cases ev
    case eof => exact ⟨rfl, extends_refl db⟩
    all_goals
      simp only [runEvents]
      split
      · rename_i db2 st2 hp
        rw [hp] at h1
        have h2 := ih db2 st2
        exact ⟨h2.1.trans h1.1, extends_trans h1.2 h2.2⟩
      · rename_i db2 m hp
        rw [hp] at h1
        exact h1
      · rename_i db2 m hp
        rw [hp] at h1
        exact h1

/-- A successful run of the event loop: Map table untouched, row counts
grow by the event list's counts, control state follows `ctlRun`. -/
lemma runEvents_ok_spec {mid : Nat} :
    ∀ {evs : List XmlEvent} {db : Db} {st : LoadState} {db' : Db} {st' : LoadState},
      runEvents mid db st evs = (db', .ok st') →
      db'.maps = db.maps ∧
      db'.layers.length = db.layers.length + (countsRun st.ctl evs).layers ∧
      db'.tiles.length = db.tiles.length + (countsRun st.ctl evs).tiles ∧
      db'.tilesets.length = db.tilesets.length + (countsRun st.ctl evs).tilesets ∧
      db'.objects.length = db.objects.length + (countsRun st.ctl evs).objects ∧
      db'.properties = db.properties ∧
      st'.ctl = ctlRun st.ctl evs := by
  intro evs
  induction evs with
  | nil =>
    intro db st db' st' h
    rw [runEvents, Prod.mk.injEq] at h
    obtain ⟨hdb, hst⟩ := h
    cases hst
    subst hdb
    simp [countsRun, ctlRun]
  | cons ev rest ih =>
    intro db st db' st' h
    cases ev
    case eof =>
      rw [runEvents, Prod.mk.injEq] at h
      obtain ⟨hdb, hst⟩ := h
      cases hst
      subst hdb
      simp [countsRun, ctlRun]
    all_goals
      simp only [runEvents] at h
      split at h
      · rename_i db2 st2 hp
        have h1 := processEvent_ok_spec hp
        have h2 := ih h
        rw [h1.2.2.2.2.2.2] at h2
        refine ⟨h2.1.trans h1.1, ?_, ?_, ?_, ?_, h2.2.2.2.2.2.1.trans h1.2.2.2.2.2.1,
          by rw [h2.2.2.2.2.2.2]; rfl⟩
        · simp only [countsRun, Counts.add]
          rw [h2.2.1, h1.2.1]
          ring
        · simp only [countsRun, Counts.add]
          rw [h2.2.2.1, h1.2.2.1]
          ring
        · simp only [countsRun, Counts.add]
          rw [h2.2.2.2.1, h1.2.2.2.1]
          ring
        · simp only [countsRun, Counts.add]
          rw [h2.2.2.2.2.1, h1.2.2.2.2.1]
          ring
      · rename_i db2 m hp
        cases h
      · rename_i db2 m hp
        cases h

/-- A successful load: the returned id is the prior Map row count
truncated to `u32`, exactly one Map row carrying that id is appended (at
end-of-parse), and the child tables grow by the document's counts. -/
lemma load_ok_spec {db : Db} {name : String} {evs : List XmlEvent} {db' : Db}
    {mapId : Nat} (h : load_tmx_map_from_str db name evs = (db', .ok mapId)) :
    mapId = db.maps.length % 4294967296 ∧
    (∃ row : TiledMap, row.map_id = mapId ∧ db'.maps = db.maps ++ [row]) ∧
    db'.layers.length = db.layers.length + (countsRun initLoadState.ctl evs).layers ∧
    db'.tiles.length = db.tiles.length + (countsRun initLoadState.ctl evs).tiles ∧
    db'.tilesets.length = db.tilesets.length + (countsRun initLoadState.ctl evs).tilesets ∧
    db'.objects.length = db.objects.length + (countsRun initLoadState.ctl evs).objects ∧
    db'.properties = db.properties := by
  simp only [load_tmx_map_from_str] at h
  split at h
  · rename_i db2 st hR
    split at h
    · rename_i db3 hI
      rw [Prod.mk.injEq] at h
      obtain ⟨hdb, hid⟩ := h
      cases hid
      subst hdb
      have h2 := runEvents_ok_spec hR
      have h3 := insertMap_ok hI
      subst h3
      exact ⟨rfl, ⟨_, rfl, by rw [h2.1]⟩, h2.2.1, h2.2.2.1, h2.2.2.2.1,
        h2.2.2.2.2.1, h2.2.2.2.2.2.1⟩
    · cases h
  · cases h
  · cases h

/-- Any load that returns an error leaves the Map table exactly as it was:
the Map insert happens only after a complete parse. -/
lemma load_err_maps {db : Db} {name : String} {evs : List XmlEvent} {db' : Db}
    {e : String} (h : load_tmx_map_from_str db name evs = (db', .err e)) :
    db'.maps = db.maps := by
  simp only [load_tmx_map_from_str] at h
  split at h
  · rename_i db2 st hR
    split at h
    · cases h
    · rename_i m hI
      rw [Prod.mk.injEq] at h
      obtain ⟨hdb, _⟩ := h
      subst hdb
      have := runEvents_untouched (db.maps.length % 4294967296) evs db initLoadState
      rw [hR] at this
      exact this.1
  · rename_i db2 m hR
    rw [Prod.mk.injEq] at h
    obtain ⟨hdb, _⟩ := h
    subst hdb
    have := runEvents_untouched (db.maps.length % 4294967296) evs db initLoadState
    rw [hR] at this
    exact this.1
  · cases h

/-- Whatever the outcome, a load only appends rows: nothing already in the
store is rolled back or rewritten. -/
lemma load_extends (db : Db) (name : String) (evs : List XmlEvent) :
    ((load_tmx_map_from_str db name evs).1).Extends db := by
  have hU := runEvents_untouched (db.maps.length % 4294967296) evs db initLoadState
  simp only [load_tmx_map_from_str]
  split
  · rename_i db2 st hR
    rw [hR] at hU
    split
    · rename_i db3 hI
      have h3 := insertMap_ok hI
      subst h3
      exact extends_trans hU.2 (extends_append_maps db2 _)
    · exact hU.2
  · rename_i db2 m hR
    rw [hR] at hU
    exact hU.2
  · rename_i db2 m hR
    rw [hR] at hU
    exact hU.2

lemma chunkLoop_cons_none {layer_id : Nat} {coords : Int × Int}
    {chunk : Nat → Nat → Option ChunkTile} {db : Db} {x y : Nat}
    {rest : List (Nat × Nat)} (hxy : chunk x y = none) :
    chunkLoop layer_id coords chunk db ((x, y) :: rest) =
      chunkLoop layer_id coords chunk db rest := by
  rw [chunkLoop, hxy]

lemma chunkLoop_cons_some {layer_id : Nat} {coords : Int × Int}
    {chunk : Nat → Nat → Option ChunkTile} {db db2 : Db} {x y : Nat}
    {t : ChunkTile} {rest : List (Nat × Nat)} (hxy : chunk x y = some t)
    (hI : db.insertTile (chunkTileRow layer_id coords db.tiles.length x y t) = .ok db2) :
    chunkLoop layer_id coords chunk db ((x, y) :: rest) =
      chunkLoop layer_id coords chunk db2 rest := by
  rw [chunkLoop, hxy]
  simp only [hI]

/-- Characterization of the per-chunk double loop: with fresh tile ids it
always succeeds and appends exactly one row per occupied visited cell, in
visit order, with wrapped world coordinates. -/
lemma chunkLoop_spec (layer_id : Nat) (coords : Int × Int)
    (chunk : Nat → Nat → Option ChunkTile) :
    ∀ (cells : List (Nat × Nat)) (db : Db), db.tilesFresh →
      chunkLoop layer_id coords chunk db cells =
        ({ db with
           tiles := db.tiles ++
             specChunkTiles layer_id db.tiles.length coords.1 coords.2
               (cells.filterMap (fun p => (chunk p.1 p.2).map (fun t => (p, t)))) },
          .ok ()) := by
  intro cells
  induction cells with
  | nil =>
    intro db _
    simp only [chunkLoop, List.filterMap_nil, specChunkTiles, List.append_nil]
  | cons p rest ih =>
    intro db hf
    obtain ⟨x, y⟩ := p
    rcases hxy : chunk x y with _ | t
    · rw [chunkLoop_cons_none hxy, ih db hf]
      simp [List.filterMap_cons, hxy]
    · rw [chunkLoop_cons_some hxy (insertTile_fresh hf rfl),
        ih _ (tilesFresh_append hf rfl)]
      simp only [List.filterMap_cons, hxy, Option.map_some, specChunkTiles,
        chunkTileRow, List.length_append, List.length_singleton,
        List.append_assoc, List.singleton_append]

/-- Two consecutive row counts remain distinct after `as u32`
truncation. -/
lemma succ_mod_u32_ne (n : Nat) : n % 4294967296 ≠ (n + 1) % 4294967296 := by
  omega

-- ============================================================
-- Claims
-- ============================================================

/-- C1: for every tile-layer CSV text decoded by the streaming loader with
map width `w > 0` (and fewer than `2^32` cells, as `idx` is cast to `u32`),
the cell at index `i` is placed at `x = i mod w`, `y = i div w`; a raw
value of exactly 0 is skipped with no Tile record; every non-zero raw
value `v` yields exactly one Tile record with `flip_h`/`flip_v`/`flip_d` =
bits 31/30/29 of `v` and `gid = v` masked to its low 29 bits
(`v mod 2^29`) — see `specTiles`. -/
theorem c1_csv_tile_decode (mid : Nat) (db : Db) (st : LoadState) (s : String)
    (lid : Nat)
    (hdata : st.in_data_element = true)
    (htype : st.current_layer_type = "tile")
    (hlayer : st.current_layer_id = some lid)
    (hw : 0 < st.width)
    (hlen : (parseCsv s).length ≤ 4294967296)
    (hf : db.tilesFresh) :
    processEvent mid db st (.text s) =
      ({ db with
         tiles := db.tiles ++ specTiles lid st.width db.tiles.length 0 (parseCsv s) },
        .ok st) := by
  have hT := tileLoop_enumFrom_spec lid st.width hw (parseCsv s) 0 db hf
    (by omega)
  simp only [processEvent, hdata, htype, hlayer, List.enum, beq_self_eq_true,
    Bool.and_self, if_true]
  rw [hT]

/-- Witness for C1 on the spec's own example extended with a flagged cell:
`"1,2,0,2684354565"` (`2684354565 = 0xA0000005`) at width 2 yields tiles
`(0,0,gid 1)`, `(1,0,gid 2)`, nothing for the zero cell, and
`(1,1,gid 5, flip_h, flip_d)`. -/
theorem c1_csv_tile_decode_witness :
    (processEvent 0 emptyDb
        { width := 2, height := 1, tile_width := 0, tile_height := 0,
          orientation := "orthogonal", background_color := none,
          current_layer_id := some 7, current_layer_type := "tile",
          in_data_element := true, tileset_counter := 0 }
        (.text "1,2,0,2684354565")).1.tiles =
      [⟨0, 7, 0, 0, 1, false, false, false⟩, ⟨1, 7, 1, 0, 2, false, false, false⟩,
        ⟨2, 7, 1, 1, 5, true, false, true⟩] := by
  have h := c1_csv_tile_decode 0 emptyDb
    { width := 2, height := 1, tile_width := 0, tile_height := 0,
      orientation := "orthogonal", background_color := none,
      current_layer_id := some 7, current_layer_type := "tile",
      in_data_element := true, tileset_counter := 0 }
    "1,2,0,2684354565" 7 rfl rfl rfl (by decide) (by decide)
    (fun t ht => absurd ht (List.not_mem_nil t))
  rw [h]
  decide

/-- C2 counterexample: the loader skips a cell only when the *raw* value
is 0.  Raw `0x80000000 = 2147483648` (flip_h bit set, low 29 bits zero) is
non-zero, so a Tile row with `gid = 0` IS inserted, refuting "no Tile row
with gid = 0 is ever inserted". -/
theorem c2_gid_zero_row_counterexample :
    ((processEvent 0 emptyDb
        { width := 1, height := 1, tile_width := 0, tile_height := 0,
          orientation := "orthogonal", background_color := none,
          current_layer_id := some 0, current_layer_type := "tile",
          in_data_element := true, tileset_counter := 0 }
        (.text "2147483648")).1).tiles.map (fun t => (t.gid, t.flip_h)) =
      [(0, true)] := by decide

/-- C2 amended: a Tile record is emitted exactly when the *raw* cell value
is non-zero (the masked gid is not consulted); for a non-zero raw whose
low 29 bits are zero the inserted row has `gid = 0` with its flag bits
set. -/
theorem c2_raw_nonzero_emission (layer_id w : Nat) (db : Db) (idx raw : Nat)
    (hw : 0 < w) (hf : db.tilesFresh) :
    (raw = 0 → tileLoop layer_id w db [(idx, raw)] = (db, .ok ())) ∧
    (raw ≠ 0 → tileLoop layer_id w db [(idx, raw)] =
      ({ db with
         tiles := db.tiles ++
           [{ tile_id := db.tiles.length, layer_id := layer_id,
              x := (idx % 4294967296) % w, y := (idx % 4294967296) / w,
              gid := raw % 2 ^ 29, flip_h := raw.testBit 31,
              flip_v := raw.testBit 30, flip_d := raw.testBit 29 }] },
        .ok ())) := by
  constructor
  · intro h0
    rw [tileLoop_cons_skip h0]
    rfl
  · intro h0
    rw [tileLoop_cons_ok h0 (by omega) (insertTile_fresh hf rfl)]
    have hmask : raw &&& 536870911 = raw % 2 ^ 29 := by
      have := Nat.and_pow_two_sub_one_eq_mod raw 29
      norm_num at this
      exact this
    have hbit31 : (raw &&& 2147483648 != 0) = raw.testBit 31 := by
      have := and_two_pow_bne raw 31
      norm_num at this
      exact this
    have hbit30 : (raw &&& 1073741824 != 0) = raw.testBit 30 := by
      have := and_two_pow_bne raw 30
      norm_num at this
      exact this
    have hbit29 : (raw &&& 536870912 != 0) = raw.testBit 29 := by
      have := and_two_pow_bne raw 29
      norm_num at this
      exact this
    rw [tileLoop]
    simp only [tileRow, hmask, hbit31, hbit30, hbit29]

/-- Witness for the amended C2 at raw `0x80000000`: exactly one row,
carrying `gid = 0` and `flip_h = true`. -/
theorem c2_raw_nonzero_emission_witness :
    tileLoop 0 1 emptyDb [(0, 2147483648)] =
      ({ emptyDb with
         tiles := [{ tile_id := 0, layer_id := 0, x := 0, y := 0, gid := 0,
                     flip_h := true, flip_v := false, flip_d := false }] },
        .ok ()) := by
  have h := (c2_raw_nonzero_emission 0 1 emptyDb 0 2147483648 (by decide)
    (fun t ht => absurd ht (List.not_mem_nil t))).2 (by decide)
  rw [h]
  decide

/-- C3 counterexample: the literal attribute value `"true"` (bytes
`[116,114,117,101]`) on a `<layer>` stores `visible = false`, refuting
"the stored boolean is true for every literal except exactly `"0"`". -/
theorem c3_visible_true_literal_counterexample :
    ((processEvent 0 emptyDb initLoadState
        (.start "layer" [.ok "visible" [116, 114, 117, 101]])).1).layers.map
      (fun l => l.visible) = [false] := by decide

/-- C3 amended: for layers, objectgroups (which use the very same
attribute loop) and objects, the stored boolean is `true` exactly when the
literal value is `"1"` (and `true` when the attribute is missing); every
other literal — including `"true"` — stores `false`. -/
theorem c3_visible_eq_one (v : List Nat) (s : String)
    (hdec : utf8Decode v = some s) :
    attrFold layerAttrStep layerAttrsDefault [.ok "visible" v] =
      .ok { layerAttrsDefault with visible := s == "1" } ∧
    attrFold objectAttrStep objectAttrsDefault [.ok "visible" v] =
      .ok { objectAttrsDefault with visible := s == "1" } ∧
    attrFold layerAttrStep layerAttrsDefault [] = .ok layerAttrsDefault ∧
    attrFold objectAttrStep objectAttrsDefault [] = .ok objectAttrsDefault ∧
    layerAttrsDefault.visible = true ∧
    objectAttrsDefault.visible = true := by
  refine ⟨?_, ?_, rfl, rfl, rfl, rfl⟩
  · simp [attrFold, layerAttrStep, withUtf8, hdec]
  · simp [attrFold, objectAttrStep, withUtf8, hdec]

/-- Witness for the amended C3 at the literals `"true"` and `"1"`. -/
theorem c3_visible_eq_one_witness :
    attrFold layerAttrStep layerAttrsDefault
        [.ok "visible" [116, 114, 117, 101]] =
      .ok { layerAttrsDefault with visible := false } ∧
    attrFold layerAttrStep layerAttrsDefault [.ok "visible" [49]] =
      .ok { layerAttrsDefault with visible := true } := by
  have h1 := (c3_visible_eq_one [116, 114, 117, 101] "true" (by decide)).1
  have h2 := (c3_visible_eq_one [49] "1" (by decide)).1
  rw [h1, h2]
  exact ⟨by decide, by decide⟩

/-- C4 counterexample: an attribute value that is not valid UTF-8 (the
single byte `0xFF`) makes the load *panic* (the source unwraps the
`from_utf8` result), refuting "aborts with a fatal error returned to the
caller (a descriptive error result, not a crash)".  (Through the public
string-input API this input is unreachable, since a Rust `&str` is always
valid UTF-8.) -/
theorem c4_invalid_utf8_panic_counterexample :
    load_tmx_map_from_str emptyDb "m"
        [.start "map" [.ok "width" [255]], .eof] =
      (emptyDb, .panic utf8PanicMsg) := by decide

/-- C4 amended: a tokenizer-level error aborts the load with a fatal error
result; rows already written to the Sink before the error are kept (no
rollback, the final store only extends the initial one); but an
attribute-value UTF-8 decoding failure is an `unwrap` panic, not an error
result — unreachable via the string API. -/
theorem c4_tokenizer_error_fatal_no_rollback (mid : Nat) (db : Db)
    (st : LoadState) (m : String) (rest : List XmlEvent) (name : String)
    (evs : List XmlEvent) (v : List Nat) (ma : MapAttrs)
    (hv : utf8Decode v = none) :
    runEvents mid db st (.errEv m :: rest) =
      (db, .err ("XML parse error: " ++ m)) ∧
    ((load_tmx_map_from_str db name evs).1).Extends db ∧
    attrFold mapAttrStep ma [.ok "width" v] = .panic utf8PanicMsg := by
  refine ⟨rfl, load_extends db name evs, ?_⟩
  simp [attrFold, mapAttrStep, withUtf8, hv]

/-- Witness for the amended C4: a concrete tokenizer error aborts with a
fatal error and keeps the rows written before it. -/
theorem c4_tokenizer_error_fatal_no_rollback_witness :
    runEvents 0 emptyDb initLoadState [.errEv "tag not closed"] =
      (emptyDb, .err ("XML parse error: " ++ "tag not closed")) ∧
    ((load_tmx_map_from_str emptyDb "m"
        [.start "tileset" [], .errEv "tag not closed"]).1).Extends emptyDb ∧
    attrFold mapAttrStep
        { width := 0, height := 0, tile_width := 0, tile_height := 0,
          orientation := "orthogonal", background_color := none }
        [.ok "width" [255]] = .panic utf8PanicMsg := by
  have h := c4_tokenizer_error_fatal_no_rollback 0 emptyDb initLoadState
    "tag not closed" [] "m" [.start "tileset" [], .errEv "tag not closed"] [255]
    { width := 0, height := 0, tile_width := 0, tile_height := 0,
      orientation := "orthogonal", background_color := none }
    (by decide)
  exact ⟨h.1, h.2.1, h.2.2⟩

/-- C5: whenever the streaming load returns a fatal error — as it does for
every structurally malformed document, whose tokenizer yields an error
event — no Map row at all is inserted, because the Map insert happens only
at end-of-parse; and an error event makes the load return a fatal error
with the store unchanged past the rows already written. -/
theorem c5_malformed_fatal_no_map_row (db : Db) (name : String)
    (evs : List XmlEvent) (db' : Db) (e : String)
    (h : load_tmx_map_from_str db name evs = (db', .err e)) :
    db'.maps = db.maps ∧
    (∀ (m : String) (rest : List XmlEvent),
      load_tmx_map_from_str db name (XmlEvent.errEv m :: rest) =
        (db, .err ("XML parse error: " ++ m))) := by
  refine ⟨load_err_maps h, ?_⟩
  intro m rest
  rfl

/-- Witness for C5: a document whose tokenizer reports an unbalanced tag
produces a fatal error and leaves the Map table exactly as before. -/
theorem c5_malformed_fatal_no_map_row_witness :
    ((load_tmx_map_from_str
        { maps := [⟨5, "old", 1, 1, 16, 16, "orthogonal", none⟩],
          layers := [], tiles := [], tilesets := [], objects := [],
          properties := [] } "m"
        [.start "map" [.ok "width" [50]], .errEv "unbalanced tag"]).1).maps =
      [⟨5, "old", 1, 1, 16, 16, "orthogonal", none⟩] := by
  have h := c5_malformed_fatal_no_map_row
    { maps := [⟨5, "old", 1, 1, 16, 16, "orthogonal", none⟩], layers := [],
      tiles := [], tilesets := [], objects := [], properties := [] } "m"
    [.start "map" [.ok "width" [50]], .errEv "unbalanced tag"]
    (load_tmx_map_from_str
      { maps := [⟨5, "old", 1, 1, 16, 16, "orthogonal", none⟩], layers := [],
        tiles := [], tilesets := [], objects := [], properties := [] } "m"
      [.start "map" [.ok "width" [50]], .errEv "unbalanced tag"]).1
    ("XML parse error: " ++ "unbalanced tag") (by decide)
  exact h.1

/-- C6: an `<object>` element seen while no layer context is open is
silently dropped — no Object row, no error, the state is unchanged and the
load continues; its attributes (even malformed ones) are never read. -/
theorem c6_object_outside_layer_dropped (mid : Nat) (db : Db) (st : LoadState)
    (attrs : List Attr) (hnone : st.current_layer_id = none) :
    processEvent mid db st (.start "object" attrs) = (db, .ok st) := by
  simp [processEvent, hnone]

/-- Witness for C6: even a malformed attribute inside the stray object
raises no error. -/
theorem c6_object_outside_layer_dropped_witness :
    processEvent 0 emptyDb initLoadState
        (.start "object" [.err "malformed attribute"]) =
      (emptyDb, .ok initLoadState) :=
  c6_object_outside_layer_dropped 0 emptyDb initLoadState
    [.err "malformed attribute"] rfl

/-- C7: two successive successful loads of the same document against the
same store return distinct map ids, leave two independent Map rows, and
the second load deletes nothing and adds exactly as many child rows per
table as the first — the operation is not idempotent. -/
theorem c7_double_load_not_idempotent (db : Db) (name1 name2 : String)
    (evs : List XmlEvent) (db1 db2 : Db) (id1 id2 : Nat)
    (h1 : load_tmx_map_from_str db name1 evs = (db1, .ok id1))
    (h2 : load_tmx_map_from_str db1 name2 evs = (db2, .ok id2)) :
    id1 ≠ id2 ∧
    db2.maps.length = db.maps.length + 2 ∧
    id1 ∈ db2.maps.map (fun r => r.map_id) ∧
    id2 ∈ db2.maps.map (fun r => r.map_id) ∧
    db2.layers.length - db1.layers.length = db1.layers.length - db.layers.length ∧
    db2.tiles.length - db1.tiles.length = db1.tiles.length - db.tiles.length ∧
    db2.tilesets.length - db1.tilesets.length =
      db1.tilesets.length - db.tilesets.length ∧
    db2.objects.length - db1.objects.length =
      db1.objects.length - db.objects.length := by
  obtain ⟨hid1, ⟨row1, hrow1, hmaps1⟩, hL1, hT1, hS1, hO1, _⟩ := load_ok_spec h1
  obtain ⟨hid2, ⟨row2, hrow2, hmaps2⟩, hL2, hT2, hS2, hO2, _⟩ := load_ok_spec h2
  have hlen1 : db1.maps.length = db.maps.length + 1 := by
    rw [hmaps1]; simp
  have hne : id1 ≠ id2 := by
    rw [hid1, hid2, hlen1]
    exact succ_mod_u32_ne db.maps.length
  refine ⟨hne, ?_, ?_, ?_, by omega, by omega, by omega, by omega⟩
  · rw [hmaps2, hmaps1]; simp
  · rw [hmaps2, hmaps1, ← hrow1]
    simp
  · rw [hmaps2, ← hrow2]
    simp

/-- Witness for C7: loading `sampleDoc` twice into the empty store yields
map ids 0 and 1 and two Map rows. -/
theorem c7_double_load_not_idempotent_witness :
    (0 : Nat) ≠ 1 ∧
    ((load_tmx_map_from_str (load_tmx_map_from_str emptyDb "a" sampleDoc).1 "b"
        sampleDoc).1).maps.length = emptyDb.maps.length + 2 := by
  have h := c7_double_load_not_idempotent emptyDb "a" "b" sampleDoc
    (load_tmx_map_from_str emptyDb "a" sampleDoc).1
    (load_tmx_map_from_str (load_tmx_map_from_str emptyDb "a" sampleDoc).1 "b"
      sampleDoc).1
    0 1 (by decide) (by decide)
  exact ⟨h.1, h.2.1⟩

/-- C8: when the map width is 0 — as happens when the `width` attribute is
missing (empty attribute list leaves the initial 0) or unparsable
(`unwrap_or(0)`) — decoding any tile-layer CSV text containing a non-zero
cell performs `idx % 0`, a Rust panic: the decode is not total and panics
instead of returning an error. -/
theorem c8_zero_width_decode_panics (mid : Nat) (db : Db) (st : LoadState)
    (s : String) (lid : Nat) (ma : MapAttrs) (v : List Nat) (sa : String)
    (hdata : st.in_data_element = true)
    (htype : st.current_layer_type = "tile")
    (hlayer : st.current_layer_id = some lid)
    (hw : st.width = 0)
    (hcell : (parseCsv s).any (fun r => r != 0) = true)
    (hdec : utf8Decode v = some sa)
    (hbad : parseU32 sa = none) :
    processEvent mid db st (.text s) = (db, .panic remZeroPanicMsg) ∧
    attrFold mapAttrStep ma [.ok "width" v] = .ok { ma with width := 0 } ∧
    attrFold mapAttrStep ma [] = .ok ma := by
  refine ⟨?_, ?_, rfl⟩
  · have hP := tileLoop_zero_width_panic lid (List.enumFrom 0 (parseCsv s)) db
      (by rw [any_enumFrom (fun r => r != 0) (parseCsv s) 0]; exact hcell)
    simp only [processEvent, hdata, htype, hlayer, List.enum, beq_self_eq_true,
      Bool.and_self, if_true]
    rw [hw, hP]
  · simp [attrFold, mapAttrStep, withUtf8, hdec, hbad]

/-- Witness for C8: an unparsable `width="abc"` ([97,98,99]) defaults to 0
and the text `"7"` then panics with the division-by-zero message. -/
theorem c8_zero_width_decode_panics_witness :
    processEvent 0 emptyDb
        { width := 0, height := 0, tile_width := 0, tile_height := 0,
          orientation := "orthogonal", background_color := none,
          current_layer_id := some 0, current_layer_type := "tile",
          in_data_element := true, tileset_counter := 0 }
        (.text "7") = (emptyDb, .panic remZeroPanicMsg) ∧
    attrFold mapAttrStep
        { width := 0, height := 0, tile_width := 0, tile_height := 0,
          orientation := "orthogonal", background_color := none }
        [.ok "width" [97, 98, 99]] =
      .ok { width := 0, height := 0, tile_width := 0, tile_height := 0,
            orientation := "orthogonal", background_color := none } := by
  have h := c8_zero_width_decode_panics 0 emptyDb
    { width := 0, height := 0, tile_width := 0, tile_height := 0,
      orientation := "orthogonal", background_color := none,
      current_layer_id := some 0, current_layer_type := "tile",
      in_data_element := true, tileset_counter := 0 }
    "7" 0
    { width := 0, height := 0, tile_width := 0, tile_height := 0,
      orientation := "orthogonal", background_color := none }
    [97, 98, 99] "abc" rfl rfl rfl rfl (by decide) (by decide) (by decide)
  exact ⟨h.1, h.2.1⟩

/-- C9: a CSV cell that does not parse as `u32` is silently discarded by
the `filter_map` *before* grid indices are assigned — it is not defaulted
to 0 and occupies no cell position, so the decode of a text with the bad
cell equals the decode of the text with that cell removed (every
subsequent cell shifts back one slot). -/
theorem c9_unparsable_cells_shift (layer_id w : Nat) (db : Db)
    (pre post : List (List Char)) (bad : List Char)
    (hbad : parseU32 (String.mk (rustTrim bad)) = none) :
    parseCells (pre ++ bad :: post) = parseCells (pre ++ post) ∧
    tileLoop layer_id w db ((parseCells (pre ++ bad :: post)).enum) =
      tileLoop layer_id w db ((parseCells (pre ++ post)).enum) := by
  have h : parseCells (pre ++ bad :: post) = parseCells (pre ++ post) := by
    simp [parseCells, List.filterMap_append, List.filterMap_cons, hbad]
  exact ⟨h, by rw [h]⟩

/-- Witness for C9: the cell `"xx"` in `"1,xx,3"` is dropped and `"3"`
takes grid slot 1. -/
theorem c9_unparsable_cells_shift_witness :
    parseCells [['1'], ['x', 'x'], ['3']] = parseCells [['1'], ['3']] ∧
    parseCells [['1'], ['3']] = [1, 3] := by
  have h := c9_unparsable_cells_shift 0 1 emptyDb [['1']] [['3']] ['x', 'x']
    (by decide)
  exact ⟨h.1, by decide⟩

/-- C10: the chunked ("infinite") arm of `store_tile_layer` stores one row
per occupied local cell `(lx, ly)` of a chunk with origin `(cx, cy)`, with
coordinates `(cx*16 + lx, cy*16 + ly)` reinterpreted `i32 → u32`
(`i32AsU32`): negative world coordinates wrap modulo `2^32` rather than
being rejected or clamped, and no error is raised (ids are the fresh
row counts). -/
theorem c10_chunk_world_coords_wrap (layer_id : Nat) (db : Db) (cx cy : Int)
    (chunk : Nat → Nat → Option ChunkTile) (hf : db.tilesFresh) :
    store_tile_layer_infinite layer_id db [((cx, cy), chunk)] =
      ({ db with
         tiles := db.tiles ++
           specChunkTiles layer_id db.tiles.length cx cy (occupiedCells chunk) },
        .ok ()) := by
  have h := chunkLoop_spec layer_id (cx, cy) chunk chunkCells db hf
  simp only [store_tile_layer_infinite, h, occupiedCells]

/-- Witness for C10: a chunk at origin `(-1, 0)` with one tile at local
cell `(3, 4)` stores world coordinates `((-16 + 3) mod 2^32, 4) =
(4294967283, 4)` and succeeds. -/
theorem c10_chunk_world_coords_wrap_witness :
    (store_tile_layer_infinite 3 emptyDb
        [(((-1 : Int), (0 : Int)),
          fun x y => if x = 3 && y = 4 then some ⟨9, true, false, false⟩ else none)]).1.tiles =
      [{ tile_id := 0, layer_id := 3, x := 4294967283, y := 4, gid := 9,
         flip_h := true, flip_v := false, flip_d := false }] ∧
    (store_tile_layer_infinite 3 emptyDb
        [(((-1 : Int), (0 : Int)),
          fun x y => if x = 3 && y = 4 then some ⟨9, true, false, false⟩ else none)]).2 =
      .ok () := by
  have h := c10_chunk_world_coords_wrap 3 emptyDb (-1) 0
    (fun x y => if x = 3 && y = 4 then some ⟨9, true, false, false⟩ else none)
    (fun t ht => absurd ht (List.not_mem_nil t))
  rw [h]
  exact ⟨by decide, rfl⟩
